import Mathlib

/-!
# Verification of the `kalmanif` differential-drive self-calibration demo

Shallow embedding of `src/examples/demo_diff_drive_self_calib.cpp` (the demo
driver) together with the parts of the `kalmanif`/`manif` libraries that the
driver exercises.  The driver source is embedded literally; the library parts
(the SE(2) group operations and the `DiffDriveSystemModel` process model) are
not shipped with this repository and are modelled from the specification.

Scalar conventions: quantities that the driver computes with `double`
arithmetic are modelled over `ℝ` (an exact idealisation); the purely
rational configuration constants are kept in `ℚ`/`ℕ`.  The loop time is
modelled twice: `tAt` is the exact grid `t = k·dt`, and `tF` reproduces the
driver's IEEE-754 binary64 accumulation `t += dt` bit for bit — the update
gates read the truncated rounded time, so their firing pattern is settled
against `tF`, not against the idealised grid.
-/

namespace KalmanifDemo

/-! ## Driver configuration constants

From `demo_diff_drive_self_calib.cpp`, lines 157-165:
`control_freq = 100`, `dt = 1/control_freq`, `var_wheel = 9e-5`,
`var_gps = 6e-3`, `landmark_freq = 50`, `gps_freq = 10`. -/

def control_freq : ℕ := 100

def landmark_freq : ℕ := 50

def gps_freq : ℕ := 10

/-- `dt = 1./control_freq` (seconds), kept exact in `ℚ`. -/
def dt : ℚ := 1 / (control_freq : ℚ)

/-- `dt` as a real number, for the control and noise arithmetic. -/
noncomputable def dtR : ℝ := ((dt : ℚ) : ℝ)

/-- `sqrtdt = std::sqrt(dt)` (line 159). -/
noncomputable def sqrtdt : ℝ := Real.sqrt dtR

/-- `var_wheel = 9e-5` in (rad/s)^2 (line 161). -/
noncomputable def var_wheel : ℝ := 9 / 100000

/-- `var_gps = 6e-3` (line 162). -/
noncomputable def var_gps : ℝ := 6 / 1000

/-! ## The update scheduler

Lines 297 and 318 of the driver gate the landmark and GPS updates by

  `int(t*100) % int(100./landmark_freq) == 0`
  `int(t*100) % int(100./gps_freq) == 0`

where `t` accumulates `dt` from 0.  In exact arithmetic the loop iteration of
index `k` (counting from 0) runs at `t = k * dt`. -/

/-- C++ `int(·)` cast applied to an exact rational value: truncation toward
zero, which is `num / den` with `Int` division. -/
def cppInt (q : ℚ) : ℤ := q.num / (q.den : ℤ)

/-- The exact simulation time of loop iteration `k`: `t = k * dt`. -/
def tAt (k : ℕ) : ℚ := (k : ℚ) * dt

/-- Line 297: the landmark-update gate `int(t*100) % int(100./landmark_freq) == 0`
at iteration `k`. -/
def landmarkFires (k : ℕ) : Prop :=
  cppInt (tAt k * 100) % cppInt (100 / (landmark_freq : ℚ)) = 0

/-- Line 318: the GPS-update gate `int(t*100) % int(100./gps_freq) == 0`
at iteration `k`. -/
def gpsFires (k : ℕ) : Prop :=
  cppInt (tAt k * 100) % cppInt (100 / (gps_freq : ℚ)) = 0

instance (k : ℕ) : Decidable (landmarkFires k) := by
  unfold landmarkFires; infer_instance

instance (k : ℕ) : Decidable (gpsFires k) := by
  unfold gpsFires; infer_instance

/-! ### Faithful binary64 model of the accumulated loop time

The driver does not keep an exact time grid: it accumulates
`t += dt` in IEEE-754 binary64 (`double t`), and the update gates read
`int(t*100)` off the rounded value, so the firing pattern can differ from
the exact grid `t = k·dt` modelled by `tAt`.

The model below reproduces the hardware arithmetic bit for bit.  Every
binary64 value arising here lies in `[0, 256)`, and every such double is an
integer multiple of `2^-59` (a value in the binade `[2^e, 2^(e+1))` is
`m·2^(e-52)` with `m < 2^53`, and `e ≤ 7` throughout the 240 s run); we
therefore represent a double by its numerator at fixed denominator `2^59`
and round exactly as the hardware does: round to nearest, ties to even,
keeping a 53-bit significand. -/

/-- Floor of `log2` by fuel recursion (128 bits of fuel cover every
numerator in this development). -/
def log2Fuel : ℕ → ℕ → ℕ
  | 0, _ => 0
  | f + 1, n => if n ≤ 1 then 0 else log2Fuel f (n / 2) + 1

/-- Round `s` to a multiple of `2^shift`: to nearest, ties to even — the
binary64 rounding of the trailing bits. -/
def rnEven (s shift : ℕ) : ℕ :=
  if shift = 0 then s
  else
    let q := s / 2 ^ shift
    let r := s % 2 ^ shift
    let half := 2 ^ (shift - 1)
    if r < half then q * 2 ^ shift
    else if half < r then (q + 1) * 2 ^ shift
    else if q % 2 = 0 then q * 2 ^ shift else (q + 1) * 2 ^ shift

/-- Binary64 rounding of the exact value `s / 2^59`: keep the top 53
significand bits (`log2Fuel 128 s + 1` is the bit length of `s`). -/
def fl64 (s : ℕ) : ℕ :=
  if s = 0 then 0 else rnEven s (log2Fuel 128 s + 1 - 53)

/-- Round `a / b` to the nearest integer, ties to even. -/
def rnDiv (a b : ℕ) : ℕ :=
  let q := a / b
  let r := a % b
  if 2 * r < b then q
  else if b < 2 * r then q + 1
  else if q % 2 = 0 then q else q + 1

/-- Line 158 under IEEE semantics: `dt = 1./control_freq` as a binary64
numerator.  `1/100` lies in the binade `[2^-7, 2^-6)`, whose doubles are the
multiples of `2^-59`, so the correctly rounded result is `2^59/100` rounded
to the nearest integer, ties to even. -/
def dtF : ℕ := rnDiv (2 ^ 59) control_freq

/-- The accumulated loop time of iteration `k` under IEEE semantics:
`t = 0` before the loop, `t += dt` (one binary64 addition, the summands
being exact multiples of `2^-59`) after each iteration. -/
def tF : ℕ → ℕ
  | 0 => 0
  | k + 1 => fl64 (tF k + dtF)

/-- `int(t*100)` as the driver computes it: one binary64 multiplication
(the product `tF k * 100` is exact at denominator `2^59` before rounding),
then the C++ truncation toward zero. -/
def intT100 (k : ℕ) : ℕ := fl64 (tF k * 100) / 2 ^ 59

/-- Line 297 under IEEE semantics: `int(t*100) % int(100./landmark_freq) == 0`.
The divisions `100./50` and `100./10` are exact in binary64, so
`int(100./landmark_freq)` is the integer `100 / landmark_freq`. -/
def landmarkFiresF (k : ℕ) : Prop := intT100 k % (100 / landmark_freq) = 0

/-- Line 318 under IEEE semantics: `int(t*100) % int(100./gps_freq) == 0`. -/
def gpsFiresF (k : ℕ) : Prop := intT100 k % (100 / gps_freq) = 0

instance (k : ℕ) : Decidable (landmarkFiresF k) := by
  unfold landmarkFiresF; infer_instance

instance (k : ℕ) : Decidable (gpsFiresF k) := by
  unfold gpsFiresF; infer_instance

/-! ## Manifold primitives

Modelled from the spec: the `manif` SE(2) group used by the driver is not
under `src/`.  An SE(2) element is a planar rigid transform `(x, y, θ)`
(spec section 3); `Exp` is the closed-form SE(2) exponential with the
small-angle branch at `|ω| < 1e-4` using the fourth-order Taylor truncation
(spec section 4.1). -/

structure SE2 where
  x : ℝ
  y : ℝ
  θ : ℝ


structure SE2Tangent where
  vx : ℝ
  vy : ℝ
  ω : ℝ


noncomputable def smallAngleThreshold : ℝ := 1 / 10000

/-- Modelled from the spec: the `sin ω / ω` entry of the SE(2) exponential's
`V(ω)` matrix, with the fourth-order small-angle truncation below `1e-4`. -/
noncomputable def sincEntry (ω : ℝ) : ℝ :=
  if |ω| < smallAngleThreshold then 1 - ω ^ 2 / 6 + ω ^ 4 / 120
  else Real.sin ω / ω

/-- Modelled from the spec: the `(1 - cos ω) / ω` entry of the SE(2)
exponential's `V(ω)` matrix, with the small-angle truncation below `1e-4`. -/
noncomputable def versEntry (ω : ℝ) : ℝ :=
  if |ω| < smallAngleThreshold then ω / 2 - ω ^ 3 / 24
  else (1 - Real.cos ω) / ω

/-- Modelled from the spec: the closed-form SE(2) exponential
`Exp (vx, vy, ω) = (V(ω)·(vx, vy), ω)`. -/
noncomputable def SE2.exp (ξ : SE2Tangent) : SE2 :=
  { x := sincEntry ξ.ω * ξ.vx - versEntry ξ.ω * ξ.vy
    y := versEntry ξ.ω * ξ.vx + sincEntry ξ.ω * ξ.vy
    θ := ξ.ω }

/-- Modelled from the spec: standard 2-D rigid composition `X₁ ∘ X₂`. -/
noncomputable def SE2.comp (X₁ X₂ : SE2) : SE2 :=
  { x := X₁.x + Real.cos X₁.θ * X₂.x - Real.sin X₁.θ * X₂.y
    y := X₁.y + Real.sin X₁.θ * X₂.x + Real.cos X₁.θ * X₂.y
    θ := X₁.θ + X₂.θ }

/-- Modelled from the spec: right-plus `X ⊞ ξ = X ∘ Exp ξ`. -/
noncomputable def SE2.rplus (X : SE2) (ξ : SE2Tangent) : SE2 :=
  X.comp (SE2.exp ξ)

def SE2.identity : SE2 := ⟨0, 0, 0⟩

/-! ## Composite state

The demo's `State` is `Bundle<SE2, R3>`: an SE(2) pose and an `ℝ³`
calibration block (spec section 3: "Composite state X = (P, c)").  The `ℝ³`
factor is the trivial group, so its exponential is the identity and
right-plus is vector addition; the composite `Exp` and `⊞` are
block-diagonal (spec section 4.1). -/

structure Calib where
  c0 : ℝ
  c1 : ℝ
  c2 : ℝ


def Calib.add (c d : Calib) : Calib := ⟨c.c0 + d.c0, c.c1 + d.c1, c.c2 + d.c2⟩

structure State where
  pose : SE2
  calib : Calib


/-- Composite tangent, ordered pose-tangent then calibration-delta. -/
structure StateTangent where
  pose : SE2Tangent
  calib : Calib


/-- Modelled from the spec: block-diagonal right-plus on the composite state. -/
noncomputable def State.rplus (X : State) (ξ : StateTangent) : State :=
  ⟨X.pose.rplus ξ.pose, X.calib.add ξ.calib⟩

/-- `State::Identity()`: identity pose, zero calibration block
(the `Rn` identity is the zero vector). -/
def State.identity : State := ⟨SE2.identity, ⟨0, 0, 0⟩⟩

/-! ## System model

Modelled from the spec: `DiffDriveSystemModel<Scalar, WithCalibration::Enabled>`
(header `kalmanif/system_models/diff_drive_system_model.h`) is not under
`src/`.  Spec section 4.2 gives the algorithm: extract the kinematic
parameters, compute `dl = (r_l·φ_l + r_r·φ_r)/2` and
`dθ = (r_r·φ_r − r_l·φ_l)/d_w` from the already-integrated control, form the
composite tangent `(dl, 0, dθ, 0, 0, 0)` and return `X ⊞ ξ`.

The calibration sub-state acts as dimensionless per-parameter scale factors
on the kinematics triple passed at construction, i.e. the effective
parameters are `r_l = r_l0·c0`, `r_r = r_r0·c1`, `d_w = d_w0·c2`.  This
reading is forced by the driver together with the spec: the driver seeds the
simulator's calibration block with `(1,1,1)` (lines 167-170) and the tyre
squeeze writes `0.85` (lines 259-261), which the spec (scenario 4) equates
with the radii switching from `0.15` to `0.1275 = 0.85·0.15`. -/

structure Kinematics where
  rl : ℝ
  rr : ℝ
  dw : ℝ


/-- Effective left wheel radius: kinematics radius scaled by the calibration
coefficient. -/
def effRl (K : Kinematics) (c : Calib) : ℝ := K.rl * c.c0

/-- Effective right wheel radius. -/
def effRr (K : Kinematics) (c : Calib) : ℝ := K.rr * c.c1

/-- Effective wheel separation. -/
def effDw (K : Kinematics) (c : Calib) : ℝ := K.dw * c.c2

/-- Modelled from the spec: arc length
`dl = (r_l·φ_l_int + r_r·φ_r_int) / 2` (spec section 4.2, step 2).
`u` is the already-integrated wheel-angle increment `(φ_l_int, φ_r_int)`. -/
noncomputable def arcLength (K : Kinematics) (c : Calib) (u : ℝ × ℝ) : ℝ :=
  (effRl K c * u.1 + effRr K c * u.2) / 2

/-- Modelled from the spec: heading increment
`dθ = (r_r·φ_r_int − r_l·φ_l_int) / d_w` (spec section 4.2, step 2). -/
noncomputable def headingIncrement (K : Kinematics) (c : Calib) (u : ℝ × ℝ) : ℝ :=
  (effRr K c * u.2 - effRl K c * u.1) / effDw K c

/-- Modelled from the spec: the pose tangent `ξ_P = (dl, 0, dθ)`
(spec section 4.2, step 3; the lateral component is zero in the nominal
model). -/
noncomputable def poseTangent (K : Kinematics) (c : Calib) (u : ℝ × ℝ) : SE2Tangent :=
  ⟨arcLength K c u, 0, headingIncrement K c u⟩

/-- Modelled from the spec: the composite tangent `ξ = (ξ_P, 0, 0, 0)`
(spec section 4.2, step 4: calibration has no deterministic motion). -/
noncomputable def stateTangent (K : Kinematics) (c : Calib) (u : ℝ × ℝ) : StateTangent :=
  ⟨poseTangent K c u, ⟨0, 0, 0⟩⟩

/-- The system model's `U` covariance, installed by `setCovariance`. -/
structure SystemModel where
  kin : Kinematics
  U : Matrix (Fin 2) (Fin 2) ℝ

/-- `system_model.setCovariance(U)` (driver line 211). -/
def SystemModel.setCovariance (sm : SystemModel) (U : Matrix (Fin 2) (Fin 2) ℝ) :
    SystemModel :=
  { sm with U := U }

/-- Modelled from the spec: the process-model application
`X' = X ⊞ (ξ_P, 0, 0, 0)` (spec section 4.2, step 5), used by the driver as
`system_model(X, u)` with an integrated control `u`. -/
noncomputable def SystemModel.apply (sm : SystemModel) (X : State) (u : ℝ × ℝ) :
    State :=
  X.rplus (stateTangent sm.kin X.calib u)

/-! ## Measurement models

Modelled from the spec (the headers are not under `src/`):
`Landmark2DMeasurementModel` computes `h(P, b) = P⁻¹ · b`, the landmark in
the robot frame (spec section 4.3); `DummyGPSMeasurementModel` returns the
translation of the pose.  The bundle wrapper routes the SE(2) sub-state of
the composite state into the sub-state model, leaving the expectation
unchanged (spec section 4.3). -/

structure MeasurementModel where
  landmark : ℝ × ℝ
  R : Matrix (Fin 2) (Fin 2) ℝ

/-- Modelled from the spec: `h(P, b) = P⁻¹ · b`, i.e. `R(θ)ᵀ (b − p)`. -/
noncomputable def MeasurementModel.h (m : MeasurementModel) (P : SE2) : ℝ × ℝ :=
  (Real.cos P.θ * (m.landmark.1 - P.x) + Real.sin P.θ * (m.landmark.2 - P.y),
   -Real.sin P.θ * (m.landmark.1 - P.x) + Real.cos P.θ * (m.landmark.2 - P.y))

/-- Modelled from the spec: the bundle wrapper applied to a landmark model
evaluates the sub-state model on the SE(2) element of the composite state. -/
noncomputable def MeasurementModel.hBundle (m : MeasurementModel) (X : State) :
    ℝ × ℝ :=
  m.h X.pose

/-- Modelled from the spec: `DummyGPSMeasurementModel` measures the absolute
position, `h(P) = translation(P)` (spec section 4.3). -/
def gpsH (P : SE2) : ℝ × ℝ := (P.x, P.y)

/-- The GPS model through the bundle wrapper. -/
def gpsHBundle (X : State) : ℝ × ℝ := gpsH X.pose

/-! ## Driver configuration (lines 167-227 of the demo)

The random draws of the driver (`randn`) are modelled by passing the raw
standard-normal samples in explicitly; `randn(sigma)` returns the
component-wise product of `sigma` with such a sample. -/

/-- Lines 167-170: `X_simulation = State::Identity()` followed by writing
`1` into each coefficient of the calibration element. -/
def X_simulation₀ : State := { State.identity with calib := ⟨1, 1, 1⟩ }

/-- Line 181: `u_nom << 0.5, 0.35` (wheel rates, move along an arc). -/
noncomputable def u_nom : ℝ × ℝ := (5 / 10, 35 / 100)

/-- Line 182: `u_sigmas << sqrt(var_wheel), sqrt(var_wheel)`. -/
noncomputable def u_sigmas : ℝ × ℝ := (Real.sqrt var_wheel, Real.sqrt var_wheel)

/-- Line 183: `U = (u_sigmas * u_sigmas).matrix().asDiagonal()`. -/
noncomputable def U : Matrix (Fin 2) (Fin 2) ℝ :=
  Matrix.diagonal ![u_sigmas.1 * u_sigmas.1, u_sigmas.2 * u_sigmas.2]

/-- Line 190: `y_sigmas << 0.01, 0.01`. -/
noncomputable def y_sigmas : ℝ × ℝ := (1 / 100, 1 / 100)

/-- Line 191: `R = (y_sigmas * y_sigmas).matrix().asDiagonal()`. -/
noncomputable def R : Matrix (Fin 2) (Fin 2) ℝ :=
  Matrix.diagonal ![y_sigmas.1 * y_sigmas.1, y_sigmas.2 * y_sigmas.2]

/-- Lines 193-197: the three landmark measurement models, in the order of the
`std::vector` initialiser. -/
noncomputable def measurement_models : List MeasurementModel :=
  [⟨(2, 0), R⟩, ⟨(2, 1), R⟩, ⟨(2, -1), R⟩]

/-- Indexed access to the three landmark models (the driver loops
`for i = 0..2` over the vector). -/
noncomputable def mmAt (i : Fin 3) : MeasurementModel :=
  measurement_models.get (Fin.cast (by rfl) i)

/-- Line 204: `y_gps_sigmas << sqrt(var_gps), sqrt(var_gps)`. -/
noncomputable def y_gps_sigmas : ℝ × ℝ := (Real.sqrt var_gps, Real.sqrt var_gps)

/-- Line 205: `R_gps = (y_gps_sigmas * y_gps_sigmas).matrix().asDiagonal()`. -/
noncomputable def R_gps : Matrix (Fin 2) (Fin 2) ℝ :=
  Matrix.diagonal ![y_gps_sigmas.1 * y_gps_sigmas.1, y_gps_sigmas.2 * y_gps_sigmas.2]

/-- Line 209: `Kinematics kinematic(0.15, 0.15, 0.4)` — wheel radii and
separation. -/
noncomputable def kinematic : Kinematics := ⟨15 / 100, 15 / 100, 4 / 10⟩

/-- Lines 210-211: `SystemModel system_model(kinematic);
system_model.setCovariance(U);`.  The covariance field before the setter is
quantified away where it matters; the constructed model carries `kinematic`. -/
noncomputable def system_model : SystemModel :=
  SystemModel.setCovariance ⟨kinematic, 0⟩ U

/-- Lines 213-219: `state_cov_init`, a zero 6×6 matrix whose six diagonal
entries are set to `0.1, 0.1, 0.17, 0.00001, 0.00001, 0.00001`. -/
noncomputable def state_cov_init : Matrix (Fin 6) (Fin 6) ℝ :=
  Matrix.diagonal ![1 / 10, 1 / 10, 17 / 100, 1 / 100000, 1 / 100000, 1 / 100000]

/-- Lines 221-223: `X_init_coeffs = state_cov_init.cwiseSqrt() * n` for a
standard-normal draw `n`, then `+= 1` on the three calibration coefficients. -/
noncomputable def X_init_coeffs (n : Fin 6 → ℝ) (i : Fin 6) : ℝ :=
  (∑ j, Real.sqrt (state_cov_init i j) * n j) + (if 3 ≤ i.val then 1 else 0)

/-- Lines 224-227: `X_init` built from the coefficient vector: an SE(2) pose
from the first three coefficients and the calibration block from the tail. -/
noncomputable def X_init (n : Fin 6 → ℝ) : State :=
  ⟨⟨X_init_coeffs n 0, X_init_coeffs n 1, X_init_coeffs n 2⟩,
   ⟨X_init_coeffs n 3, X_init_coeffs n 4, X_init_coeffs n 5⟩⟩

/-! ## The estimator family

The four filter implementations live in the `kalmanif` headers, which are not
under `src/`.  The driver only needs their observable interface: each filter
carries a state and a covariance (spec section 4.4: `set_state`,
`set_covariance`, `predict`, `update`, `get_state`, `get_covariance`); the
predict/update algorithms themselves are left as parameters (`FilterOps`),
so that every theorem below holds for whatever the library computes. -/

structure Filter where
  state : State
  cov : Matrix (Fin 6) (Fin 6) ℝ

/-- `setState` (driver line 230). -/
def Filter.setState (f : Filter) (X : State) : Filter := { f with state := X }

/-- `setCovariance` (driver line 231). -/
def Filter.setCovariance (f : Filter) (P : Matrix (Fin 6) (Fin 6) ℝ) : Filter :=
  { f with cov := P }

/-- Lines 229-231: `EKF ekf; ekf.setState(X_init); ekf.setCovariance(state_cov_init);`
starting from the default-constructed filter `f₀`. -/
noncomputable def ekf_init (f₀ : Filter) (n : Fin 6 → ℝ) : Filter :=
  (f₀.setState (X_init n)).setCovariance state_cov_init

/-- Line 233: `SEKF sekf(X_init, state_cov_init);` — the constructor stores
the given mean and covariance. -/
noncomputable def sekf_init (n : Fin 6 → ℝ) : Filter := ⟨X_init n, state_cov_init⟩

/-- Line 235: `IEKF iekf(X_init, state_cov_init);`. -/
noncomputable def iekf_init (n : Fin 6 → ℝ) : Filter := ⟨X_init n, state_cov_init⟩

/-- Line 237: `UKFM ukfm(X_init, state_cov_init);`. -/
noncomputable def ukfm_init (n : Fin 6 → ℝ) : Filter := ⟨X_init n, state_cov_init⟩

/-- A measurement model handed to `update`: either a wrapped landmark model
or the wrapped GPS model with its covariance. -/
inductive MModel
  | lmk (m : MeasurementModel)
  | gps (Rg : Matrix (Fin 2) (Fin 2) ℝ)

/-- The predict/update operations of one filter variant, abstract: the driver
never looks inside them. -/
structure FilterOps where
  propagate : Filter → (ℝ × ℝ) → Filter
  update : Filter → MModel → (ℝ × ℝ) → Filter

/-- One call the driver makes into a filter: a propagation with an integrated
control, or an update with a measurement model and a measurement. -/
inductive FilterCall
  | propagate (u : ℝ × ℝ)
  | update (m : MModel) (y : ℝ × ℝ)

def applyCall (ops : FilterOps) (f : Filter) : FilterCall → Filter
  | .propagate u => ops.propagate f u
  | .update m y => ops.update f m y

/-- Running a sequence of filter calls left to right. -/
def applyCalls (ops : FilterOps) (cs : List FilterCall) (f : Filter) : Filter :=
  cs.foldl (applyCall ops) f

/-! ## One iteration of the driver loop (lines 244-337)

Loop iteration `k` runs at `t = k·dt`.  The `randn` draws of the iteration
are modelled by a `StepNoise` record of raw standard-normal samples. -/

structure StepNoise where
  u : ℝ × ℝ
  y : Fin 3 → ℝ × ℝ
  gps : ℝ × ℝ

/-- Line 248: `u_noise = randn(u_sigmas / sqrtdt)` — a normal draw with
component-wise standard deviation `u_sigmas / sqrt(dt)`. -/
noncomputable def u_noiseOf (z : ℝ × ℝ) : ℝ × ℝ :=
  (u_sigmas.1 / sqrtdt * z.1, u_sigmas.2 / sqrtdt * z.2)

/-- Line 249: `u_noisy = u_nom + u_noise`. -/
noncomputable def u_noisyOf (z : ℝ × ℝ) : ℝ × ℝ :=
  (u_nom.1 + (u_noiseOf z).1, u_nom.2 + (u_noiseOf z).2)

/-- Line 251: `u_simu = u_nom * dt`. -/
noncomputable def u_simu : ℝ × ℝ := (u_nom.1 * dtR, u_nom.2 * dtR)

/-- Line 252: `u_est = u_noisy * dt`. -/
noncomputable def u_estOf (z : ℝ × ℝ) : ℝ × ℝ :=
  ((u_noisyOf z).1 * dtR, (u_noisyOf z).2 * dtR)

/-- Line 253: `u_unfilt = u_noisy * dt`. -/
noncomputable def u_unfiltOf (z : ℝ × ℝ) : ℝ × ℝ :=
  ((u_noisyOf z).1 * dtR, (u_noisyOf z).2 * dtR)

/-- Line 255: the tyre-squeeze guard `t > 120` at iteration `k`. -/
def squeezeCond (k : ℕ) : Prop := 120 < tAt k

instance (k : ℕ) : Decidable (squeezeCond k) := by
  unfold squeezeCond; infer_instance

/-- Lines 259-261: the calibration coefficients written by the squeeze
event: `0.85, 0.85, 1`. -/
noncomputable def squeezeCalib : Calib := ⟨85 / 100, 85 / 100, 1⟩

/-- Lines 255-262: when `t > 120` the scripted event overwrites the
calibration element of `X_simulation` (and of nothing else). -/
noncomputable def applySqueeze (k : ℕ) (X : State) : State :=
  if squeezeCond k then { X with calib := squeezeCalib } else X

/-- Lines 268-280: the noisy landmark measurements taken on the moved
simulator state, in index order (`y = h(X_simulation) + randn(y_sigmas)`). -/
noncomputable def measurementsOf (z : StepNoise) (Xsim : State) (i : Fin 3) :
    ℝ × ℝ :=
  (((mmAt i).hBundle Xsim).1 + y_sigmas.1 * (z.y i).1,
   ((mmAt i).hBundle Xsim).2 + y_sigmas.2 * (z.y i).2)

/-- Lines 323-327: the noisy GPS measurement taken on the moved simulator
state (`y_gps = h_gps(X_simulation) + randn(y_gps_sigmas)`). -/
noncomputable def gpsMeasOf (z : StepNoise) (Xsim : State) : ℝ × ℝ :=
  ((gpsHBundle Xsim).1 + y_gps_sigmas.1 * z.gps.1,
   (gpsHBundle Xsim).2 + y_gps_sigmas.2 * z.gps.2)

/-! ### The sequence of calls each filter receives in one iteration

Transcribed per filter from the driver: `ekf.propagate(system_model, u_est)`
(line 285), then — when the landmark gate fires — `ekf.update(..., y)` for
`i = 0, 1, 2` (lines 297-315), then — when the GPS gate fires —
`ekf.update(..., y_gps)` (lines 318-337); and likewise for `sekf` (lines
287, 309, 332), `iekf` (289, 311, 334) and `ukfm` (291, 313, 336). -/

noncomputable def ekfStepCalls (k : ℕ) (uEst : ℝ × ℝ) (ys : Fin 3 → ℝ × ℝ)
    (ygps : ℝ × ℝ) : List FilterCall :=
  FilterCall.propagate uEst ::
    ((if landmarkFires k then
        (List.finRange 3).map (fun i => FilterCall.update (MModel.lmk (mmAt i)) (ys i))
      else []) ++
     (if gpsFires k then [FilterCall.update (MModel.gps R_gps) ygps] else []))

noncomputable def sekfStepCalls (k : ℕ) (uEst : ℝ × ℝ) (ys : Fin 3 → ℝ × ℝ)
    (ygps : ℝ × ℝ) : List FilterCall :=
  FilterCall.propagate uEst ::
    ((if landmarkFires k then
        (List.finRange 3).map (fun i => FilterCall.update (MModel.lmk (mmAt i)) (ys i))
      else []) ++
     (if gpsFires k then [FilterCall.update (MModel.gps R_gps) ygps] else []))

noncomputable def iekfStepCalls (k : ℕ) (uEst : ℝ × ℝ) (ys : Fin 3 → ℝ × ℝ)
    (ygps : ℝ × ℝ) : List FilterCall :=
  FilterCall.propagate uEst ::
    ((if landmarkFires k then
        (List.finRange 3).map (fun i => FilterCall.update (MModel.lmk (mmAt i)) (ys i))
      else []) ++
     (if gpsFires k then [FilterCall.update (MModel.gps R_gps) ygps] else []))

noncomputable def ukfmStepCalls (k : ℕ) (uEst : ℝ × ℝ) (ys : Fin 3 → ℝ × ℝ)
    (ygps : ℝ × ℝ) : List FilterCall :=
  FilterCall.propagate uEst ::
    ((if landmarkFires k then
        (List.finRange 3).map (fun i => FilterCall.update (MModel.lmk (mmAt i)) (ys i))
      else []) ++
     (if gpsFires k then [FilterCall.update (MModel.gps R_gps) ygps] else []))

/-! ### The driver loop state and transition -/

structure DriverState where
  Xsim : State
  Xunf : State
  ekf : Filter
  sekf : Filter
  iekf : Filter
  ukfm : Filter

/-- One iteration of the loop body (lines 244-337): squeeze event, simulator
move with `u_simu`, landmark measurement simulation, the filter calls with
`u_est` and the noisy measurements, and the unfiltered propagation with
`u_unfilt`. -/
noncomputable def driverStep (opsE opsS opsI opsU : FilterOps) (k : ℕ)
    (z : StepNoise) (s : DriverState) : DriverState :=
  let uEst := u_estOf z.u
  let Xsim := system_model.apply (applySqueeze k s.Xsim) u_simu
  let ys := measurementsOf z Xsim
  let ygps := gpsMeasOf z Xsim
  { Xsim := Xsim
    Xunf := system_model.apply s.Xunf (u_unfiltOf z.u)
    ekf := applyCalls opsE (ekfStepCalls k uEst ys ygps) s.ekf
    sekf := applyCalls opsS (sekfStepCalls k uEst ys ygps) s.sekf
    iekf := applyCalls opsI (iekfStepCalls k uEst ys ygps) s.iekf
    ukfm := applyCalls opsU (ukfmStepCalls k uEst ys ygps) s.ukfm }

/-- The state just before the loop: lines 167-172 and 229-237
(`X_unfiltered = X_simulation`). -/
noncomputable def driverInit (f₀ : Filter) (n : Fin 6 → ℝ) : DriverState :=
  { Xsim := X_simulation₀
    Xunf := X_simulation₀
    ekf := ekf_init f₀ n
    sekf := sekf_init n
    iekf := iekf_init n
    ukfm := ukfm_init n }

/-- The driver state after `k` complete loop iterations, given the stream of
raw noise draws. -/
noncomputable def driverRun (opsE opsS opsI opsU : FilterOps)
    (noise : ℕ → StepNoise) (f₀ : Filter) (n : Fin 6 → ℝ) : ℕ → DriverState
  | 0 => driverInit f₀ n
  | k + 1 =>
      driverStep opsE opsS opsI opsU k (noise k)
        (driverRun opsE opsS opsI opsU noise f₀ n k)

/-! ### Concrete objects used by the witness theorems -/

/-- A filter value standing in for the default-constructed `EKF`. -/
def trivFilter : Filter := ⟨State.identity, 0⟩

/-- Filter operations that leave the filter unchanged; the theorems below
hold for arbitrary operations, so in particular for these. -/
def trivOps : FilterOps := ⟨fun f _ => f, fun f _ _ => f⟩

/-- The all-zero raw noise draw. -/
def zeroNoise : StepNoise := ⟨(0, 0), fun _ => (0, 0), (0, 0)⟩

/-- A filter property is preserved by a variant's operations when both its
`propagate` and its `update` preserve it. -/
def Preserves (Φ : Filter → Prop) (ops : FilterOps) : Prop :=
  (∀ f u, Φ f → Φ (ops.propagate f u)) ∧ (∀ f m y, Φ f → Φ (ops.update f m y))

/-! ## Basic lemmas about the embedding -/

lemma cppInt_natCast (n : ℕ) : cppInt (n : ℚ) = (n : ℤ) := by
  simp [cppInt]

lemma tAt_mul_100 (k : ℕ) : tAt k * 100 = (k : ℚ) := by
  unfold tAt dt control_freq
  push_cast
  ring

lemma landmarkFires_iff (k : ℕ) : landmarkFires k ↔ (2 : ℕ) ∣ k := by
  unfold landmarkFires
  rw [tAt_mul_100, cppInt_natCast]
  have h2 : cppInt (100 / (landmark_freq : ℚ)) = 2 := by
    unfold landmark_freq; norm_num [cppInt]
  rw [h2]
  constructor
  · intro h
    have h2k : (2 : ℤ) ∣ (k : ℤ) := Int.dvd_of_emod_eq_zero h
    exact_mod_cast h2k
  · intro h
    exact Int.emod_eq_zero_of_dvd (by exact_mod_cast h)

lemma gpsFires_iff (k : ℕ) : gpsFires k ↔ (10 : ℕ) ∣ k := by
  unfold gpsFires
  rw [tAt_mul_100, cppInt_natCast]
  have h10 : cppInt (100 / (gps_freq : ℚ)) = 10 := by
    unfold gps_freq; norm_num [cppInt]
  rw [h10]
  constructor
  · intro h
    have hk : (10 : ℤ) ∣ (k : ℤ) := Int.dvd_of_emod_eq_zero h
    exact_mod_cast hk
  · intro h
    exact Int.emod_eq_zero_of_dvd (by exact_mod_cast h)

lemma squeezeCond_iff (k : ℕ) : squeezeCond k ↔ 12000 < k := by
  unfold squeezeCond tAt dt control_freq
  rw [mul_one_div, lt_div_iff₀ (by norm_num : (0 : ℚ) < (100 : ℕ))]
  norm_num

lemma Calib.add_zero (c : Calib) : c.add ⟨0, 0, 0⟩ = c := by
  cases c
  simp [Calib.add]

/-- The process model never moves the calibration block: the composite
tangent it retracts by has a zero calibration component. -/
lemma SystemModel.apply_calib (sm : SystemModel) (X : State) (u : ℝ × ℝ) :
    (sm.apply X u).calib = X.calib := by
  show X.calib.add ⟨0, 0, 0⟩ = X.calib
  exact Calib.add_zero X.calib

lemma applySqueeze_of_not (k : ℕ) (X : State) (h : ¬ squeezeCond k) :
    applySqueeze k X = X := by
  simp [applySqueeze, h]

lemma applySqueeze_calib_of (k : ℕ) (X : State) (h : squeezeCond k) :
    (applySqueeze k X).calib = squeezeCalib := by
  simp [applySqueeze, h]

/-- Projections of one driver iteration (the `let`s of `driverStep` reduce
definitionally). -/
lemma driverStep_Xsim (opsE opsS opsI opsU : FilterOps) (k : ℕ)
    (z : StepNoise) (s : DriverState) :
    (driverStep opsE opsS opsI opsU k z s).Xsim =
      system_model.apply (applySqueeze k s.Xsim) u_simu := rfl

lemma driverStep_Xunf (opsE opsS opsI opsU : FilterOps) (k : ℕ)
    (z : StepNoise) (s : DriverState) :
    (driverStep opsE opsS opsI opsU k z s).Xunf =
      system_model.apply s.Xunf (u_unfiltOf z.u) := rfl

lemma driverStep_ekf (opsE opsS opsI opsU : FilterOps) (k : ℕ)
    (z : StepNoise) (s : DriverState) :
    (driverStep opsE opsS opsI opsU k z s).ekf =
      applyCalls opsE
        (ekfStepCalls k (u_estOf z.u)
          (measurementsOf z (system_model.apply (applySqueeze k s.Xsim) u_simu))
          (gpsMeasOf z (system_model.apply (applySqueeze k s.Xsim) u_simu)))
        s.ekf := rfl

lemma driverStep_sekf (opsE opsS opsI opsU : FilterOps) (k : ℕ)
    (z : StepNoise) (s : DriverState) :
    (driverStep opsE opsS opsI opsU k z s).sekf =
      applyCalls opsS
        (sekfStepCalls k (u_estOf z.u)
          (measurementsOf z (system_model.apply (applySqueeze k s.Xsim) u_simu))
          (gpsMeasOf z (system_model.apply (applySqueeze k s.Xsim) u_simu)))
        s.sekf := rfl

lemma driverStep_iekf (opsE opsS opsI opsU : FilterOps) (k : ℕ)
    (z : StepNoise) (s : DriverState) :
    (driverStep opsE opsS opsI opsU k z s).iekf =
      applyCalls opsI
        (iekfStepCalls k (u_estOf z.u)
          (measurementsOf z (system_model.apply (applySqueeze k s.Xsim) u_simu))
          (gpsMeasOf z (system_model.apply (applySqueeze k s.Xsim) u_simu)))
        s.iekf := rfl

lemma driverStep_ukfm (opsE opsS opsI opsU : FilterOps) (k : ℕ)
    (z : StepNoise) (s : DriverState) :
    (driverStep opsE opsS opsI opsU k z s).ukfm =
      applyCalls opsU
        (ukfmStepCalls k (u_estOf z.u)
          (measurementsOf z (system_model.apply (applySqueeze k s.Xsim) u_simu))
          (gpsMeasOf z (system_model.apply (applySqueeze k s.Xsim) u_simu)))
        s.ukfm := rfl

/-- A property preserved by a filter's `propagate` and `update` is preserved
by any sequence of driver calls into that filter. -/
lemma applyCalls_preserves (Φ : Filter → Prop) (ops : FilterOps)
    (hp : ∀ f u, Φ f → Φ (ops.propagate f u))
    (hu : ∀ f m y, Φ f → Φ (ops.update f m y)) :
    ∀ (cs : List FilterCall) (f : Filter), Φ f → Φ (applyCalls ops cs f) := by
  intro cs
  induction cs with
  | nil => exact fun f h => h
  | cons c cs ih =>
    intro f h
    cases c with
    | propagate u => exact ih _ (hp _ _ h)
    | update m y => exact ih _ (hu _ _ _ h)

/-- The simulator's calibration block stays at its seeded value `(1, 1, 1)`
through every iteration whose squeeze guard is off. -/
lemma driverRun_Xsim_calib_pre (opsE opsS opsI opsU : FilterOps)
    (noise : ℕ → StepNoise) (f₀ : Filter) (n : Fin 6 → ℝ) :
    ∀ k, k ≤ 12001 →
      (driverRun opsE opsS opsI opsU noise f₀ n k).Xsim.calib = ⟨1, 1, 1⟩ := by
  intro k
  induction k with
  | zero => intro _; rfl
  | succ k ih =>
    intro hk
    have hk' : k ≤ 12001 := Nat.le_of_succ_le hk
    have hnot : ¬ squeezeCond k := by
      rw [squeezeCond_iff]
      omega
    show (driverStep opsE opsS opsI opsU k (noise k) _).Xsim.calib = _
    rw [driverStep_Xsim, SystemModel.apply_calib, applySqueeze_of_not _ _ hnot]
    exact ih hk'

/-- From iteration 12001 on (`t > 120`), the squeeze event holds the
simulator's calibration block at `(0.85, 0.85, 1)`. -/
lemma driverRun_Xsim_calib_post (opsE opsS opsI opsU : FilterOps)
    (noise : ℕ → StepNoise) (f₀ : Filter) (n : Fin 6 → ℝ) :
    ∀ k, 12002 ≤ k →
      (driverRun opsE opsS opsI opsU noise f₀ n k).Xsim.calib = squeezeCalib := by
  intro k hk
  obtain ⟨j, rfl⟩ : ∃ j, k = j + 1 := ⟨k - 1, by omega⟩
  have hcond : squeezeCond j := by
    rw [squeezeCond_iff]
    omega
  show (driverStep opsE opsS opsI opsU j (noise j) _).Xsim.calib = _
  rw [driverStep_Xsim, SystemModel.apply_calib, applySqueeze_calib_of _ _ hcond]

/-- The driver touches the estimators only through their `propagate`/`update`
operations: any property those operations preserve holds of every filter
after every number of iterations. -/
lemma driverRun_filters_only_ops (Φ : Filter → Prop)
    (opsE opsS opsI opsU : FilterOps) (noise : ℕ → StepNoise) (f₀ : Filter)
    (n : Fin 6 → ℝ)
    (hE : Preserves Φ opsE) (hS : Preserves Φ opsS)
    (hI : Preserves Φ opsI) (hU : Preserves Φ opsU)
    (bE : Φ (ekf_init f₀ n)) (bS : Φ (sekf_init n))
    (bI : Φ (iekf_init n)) (bU : Φ (ukfm_init n)) :
    ∀ k,
      Φ ((driverRun opsE opsS opsI opsU noise f₀ n k).ekf) ∧
      Φ ((driverRun opsE opsS opsI opsU noise f₀ n k).sekf) ∧
      Φ ((driverRun opsE opsS opsI opsU noise f₀ n k).iekf) ∧
      Φ ((driverRun opsE opsS opsI opsU noise f₀ n k).ukfm) := by
  intro k
  induction k with
  | zero => exact ⟨bE, bS, bI, bU⟩
  | succ k ih =>
    refine ⟨?_, ?_, ?_, ?_⟩
    · rw [show (driverRun opsE opsS opsI opsU noise f₀ n (k + 1)).ekf =
          applyCalls opsE _ (driverRun opsE opsS opsI opsU noise f₀ n k).ekf from
          driverStep_ekf _ _ _ _ _ _ _]
      exact applyCalls_preserves Φ opsE hE.1 hE.2 _ _ ih.1
    · rw [show (driverRun opsE opsS opsI opsU noise f₀ n (k + 1)).sekf =
          applyCalls opsS _ (driverRun opsE opsS opsI opsU noise f₀ n k).sekf from
          driverStep_sekf _ _ _ _ _ _ _]
      exact applyCalls_preserves Φ opsS hS.1 hS.2 _ _ ih.2.1
    · rw [show (driverRun opsE opsS opsI opsU noise f₀ n (k + 1)).iekf =
          applyCalls opsI _ (driverRun opsE opsS opsI opsU noise f₀ n k).iekf from
          driverStep_iekf _ _ _ _ _ _ _]
      exact applyCalls_preserves Φ opsI hI.1 hI.2 _ _ ih.2.2.1
    · rw [show (driverRun opsE opsS opsI opsU noise f₀ n (k + 1)).ukfm =
          applyCalls opsU _ (driverRun opsE opsS opsI opsU noise f₀ n k).ukfm from
          driverStep_ukfm _ _ _ _ _ _ _]
      exact applyCalls_preserves Φ opsU hU.1 hU.2 _ _ ih.2.2.2

/-- The calibration coefficients of `X_init` are the seeded `1` plus the
scaled noise draw: the off-diagonal square roots in the `cwiseSqrt` product
vanish. -/
lemma X_init_coeffs_calib (n : Fin 6 → ℝ) :
    X_init_coeffs n 3 = Real.sqrt (1 / 100000) * n 3 + 1 ∧
    X_init_coeffs n 4 = Real.sqrt (1 / 100000) * n 4 + 1 ∧
    X_init_coeffs n 5 = Real.sqrt (1 / 100000) * n 5 + 1 := by
  unfold X_init_coeffs
  refine ⟨?_, ?_, ?_⟩ <;>
    · rw [Fin.sum_univ_six]
      norm_num [state_cov_init, Matrix.diagonal_apply, Fin.ext_iff,
        show ((3 : Fin 6) : ℕ) = 3 from rfl, show ((4 : Fin 6) : ℕ) = 4 from rfl,
        show ((5 : Fin 6) : ℕ) = 5 from rfl, show ((0 : Fin 6) : ℕ) = 0 from rfl,
        show ((1 : Fin 6) : ℕ) = 1 from rfl, show ((2 : Fin 6) : ℕ) = 2 from rfl,
        show (![(1 : ℝ) / 10, 1 / 10, 17 / 100, 1 / 100000, 1 / 100000, 1 / 100000]
            (5 : Fin 6)) = 1 / 100000 from rfl]

/-! ## The claims -/

/-- C1: Every control the driver hands to the process model — the simulator
call and each filter's propagate — is the wheel-rate vector (nominal or
noisy) pre-multiplied by Δt: `u_simu = u_nom·dt` reaches the simulator move,
`u_est = (u_nom + u_noise)·dt` heads every filter's call sequence, and
`u_unfilt = (u_nom + u_noise)·dt` reaches the unfiltered propagation.
The process model is homogeneous of degree one in its control argument
(`arcLength` and `headingIncrement` are linear forms in `u`), so the factor
of Δt is applied exactly once on the path from `u_nom` to the model. -/
theorem C1_dt_applied_exactly_once :
    u_simu = (u_nom.1 * dtR, u_nom.2 * dtR) ∧
    (∀ z : ℝ × ℝ,
      u_estOf z =
        ((u_nom.1 + (u_noiseOf z).1) * dtR, (u_nom.2 + (u_noiseOf z).2) * dtR) ∧
      u_unfiltOf z =
        ((u_nom.1 + (u_noiseOf z).1) * dtR, (u_nom.2 + (u_noiseOf z).2) * dtR)) ∧
    (∀ (opsE opsS opsI opsU : FilterOps) (k : ℕ) (z : StepNoise) (s : DriverState),
      (driverStep opsE opsS opsI opsU k z s).Xsim =
        system_model.apply (applySqueeze k s.Xsim) u_simu ∧
      (driverStep opsE opsS opsI opsU k z s).Xunf =
        system_model.apply s.Xunf (u_unfiltOf z.u) ∧
      (∃ rest, (driverStep opsE opsS opsI opsU k z s).ekf =
        applyCalls opsE (FilterCall.propagate (u_estOf z.u) :: rest) s.ekf) ∧
      (∃ rest, (driverStep opsE opsS opsI opsU k z s).sekf =
        applyCalls opsS (FilterCall.propagate (u_estOf z.u) :: rest) s.sekf) ∧
      (∃ rest, (driverStep opsE opsS opsI opsU k z s).iekf =
        applyCalls opsI (FilterCall.propagate (u_estOf z.u) :: rest) s.iekf) ∧
      (∃ rest, (driverStep opsE opsS opsI opsU k z s).ukfm =
        applyCalls opsU (FilterCall.propagate (u_estOf z.u) :: rest) s.ukfm)) ∧
    (∀ (K : Kinematics) (c : Calib) (u : ℝ × ℝ) (a : ℝ),
      arcLength K c (a * u.1, a * u.2) = a * arcLength K c u ∧
      headingIncrement K c (a * u.1, a * u.2) = a * headingIncrement K c u) := by
  refine ⟨rfl, fun z => ⟨rfl, rfl⟩, ?_, ?_⟩
  · intro opsE opsS opsI opsU k z s
    exact ⟨rfl, rfl, ⟨_, rfl⟩, ⟨_, rfl⟩, ⟨_, rfl⟩, ⟨_, rfl⟩⟩
  · intro K c u a
    constructor
    · show (effRl K c * (a * u.1) + effRr K c * (a * u.2)) / 2 =
        a * ((effRl K c * u.1 + effRr K c * u.2) / 2)
      ring
    · show (effRr K c * (a * u.2) - effRl K c * (a * u.1)) / effDw K c =
        a * ((effRr K c * u.2 - effRl K c * u.1) / effDw K c)
      ring

/-- C2: After 120 s of nominal operation with effective wheel radii
`r_l = r_r = 0.15` (kinematics `0.15` scaled by the seeded calibration
`(1,1,1)`), the simulated model switches to `r_l = r_r = 0.1275` — a 15%
reduction — via the scripted write of `(0.85, 0.85, 1)`; the guard `t > 120`
first holds at iteration 12001, the simulator's calibration block is
`(1,1,1)` through iteration 12001 and `(0.85, 0.85, 1)` from iteration 12002
on, and the jump is never written into any of the four estimators' states:
the driver touches those only through `propagate`/`update`. -/
theorem C2_squeeze_targets_simulator_only :
    (∀ k, squeezeCond k ↔ 12000 < k) ∧
    effRl kinematic X_simulation₀.calib = 15 / 100 ∧
    effRr kinematic X_simulation₀.calib = 15 / 100 ∧
    effRl kinematic squeezeCalib = 1275 / 10000 ∧
    effRr kinematic squeezeCalib = 1275 / 10000 ∧
    (1275 / 10000 : ℝ) = (1 - 15 / 100) * (15 / 100) ∧
    (∀ (opsE opsS opsI opsU : FilterOps) (noise : ℕ → StepNoise) (f₀ : Filter)
        (n : Fin 6 → ℝ) (k : ℕ), k ≤ 12001 →
      (driverRun opsE opsS opsI opsU noise f₀ n k).Xsim.calib = ⟨1, 1, 1⟩) ∧
    (∀ (opsE opsS opsI opsU : FilterOps) (noise : ℕ → StepNoise) (f₀ : Filter)
        (n : Fin 6 → ℝ) (k : ℕ), 12002 ≤ k →
      (driverRun opsE opsS opsI opsU noise f₀ n k).Xsim.calib = squeezeCalib) ∧
    (∀ (Φ : Filter → Prop) (opsE opsS opsI opsU : FilterOps)
        (noise : ℕ → StepNoise) (f₀ : Filter) (n : Fin 6 → ℝ),
      Preserves Φ opsE → Preserves Φ opsS → Preserves Φ opsI → Preserves Φ opsU →
      Φ (ekf_init f₀ n) → Φ (sekf_init n) → Φ (iekf_init n) → Φ (ukfm_init n) →
      ∀ k,
        Φ ((driverRun opsE opsS opsI opsU noise f₀ n k).ekf) ∧
        Φ ((driverRun opsE opsS opsI opsU noise f₀ n k).sekf) ∧
        Φ ((driverRun opsE opsS opsI opsU noise f₀ n k).iekf) ∧
        Φ ((driverRun opsE opsS opsI opsU noise f₀ n k).ukfm)) := by
  refine ⟨squeezeCond_iff, ?_, ?_, ?_, ?_, by norm_num, ?_, ?_, ?_⟩
  · show (15 : ℝ) / 100 * 1 = 15 / 100; ring
  · show (15 : ℝ) / 100 * 1 = 15 / 100; ring
  · show (15 : ℝ) / 100 * (85 / 100) = 1275 / 10000; norm_num
  · show (15 : ℝ) / 100 * (85 / 100) = 1275 / 10000; norm_num
  · intro opsE opsS opsI opsU noise f₀ n k hk
    exact driverRun_Xsim_calib_pre opsE opsS opsI opsU noise f₀ n k hk
  · intro opsE opsS opsI opsU noise f₀ n k hk
    exact driverRun_Xsim_calib_post opsE opsS opsI opsU noise f₀ n k hk
  · intro Φ opsE opsS opsI opsU noise f₀ n hE hS hI hU bE bS bI bU
    exact driverRun_filters_only_ops Φ opsE opsS opsI opsU noise f₀ n
      hE hS hI hU bE bS bI bU

/-- C2 witness: the theorem instantiated at concrete inputs — identity
filter operations, zero noise, the zero initial draw; the simulator's
calibration block is still `(1,1,1)` after 3 iterations, is
`(0.85, 0.85, 1)` after 12002 iterations, and the property "the filter's
state equals `X_init 0`" (preserved by the identity operations) still holds
of the EKF after 7 iterations. -/
theorem C2_witness :
    (driverRun trivOps trivOps trivOps trivOps (fun _ => zeroNoise) trivFilter
        (fun _ => 0) 3).Xsim.calib = ⟨1, 1, 1⟩ ∧
    (driverRun trivOps trivOps trivOps trivOps (fun _ => zeroNoise) trivFilter
        (fun _ => 0) 12002).Xsim.calib = squeezeCalib ∧
    (driverRun trivOps trivOps trivOps trivOps (fun _ => zeroNoise) trivFilter
        (fun _ => 0) 7).ekf.state = X_init (fun _ => 0) := by
  refine ⟨?_, ?_, ?_⟩
  · exact C2_squeeze_targets_simulator_only.2.2.2.2.2.2.1
      trivOps trivOps trivOps trivOps (fun _ => zeroNoise) trivFilter
      (fun _ => 0) 3 (by decide)
  · exact C2_squeeze_targets_simulator_only.2.2.2.2.2.2.2.1
      trivOps trivOps trivOps trivOps (fun _ => zeroNoise) trivFilter
      (fun _ => 0) 12002 (by decide)
  · exact (C2_squeeze_targets_simulator_only.2.2.2.2.2.2.2.2
      (fun f => f.state = X_init (fun _ => 0)) trivOps trivOps trivOps trivOps
      (fun _ => zeroNoise) trivFilter (fun _ => 0)
      ⟨fun _ _ h => h, fun _ _ _ h => h⟩ ⟨fun _ _ h => h, fun _ _ _ h => h⟩
      ⟨fun _ _ h => h, fun _ _ _ h => h⟩ ⟨fun _ _ h => h, fun _ _ _ h => h⟩
      rfl rfl rfl rfl 7).1

/-- C3: On every step the driver draws the control-noise sample with
per-wheel standard deviation `u_sigmas / sqrt(dt)`, then multiplies the
noisy control by `dt`, while the covariance installed once via
`setCovariance(U)` is `U = diag(9e-5, 9e-5)` — the continuous-time rate in
(rad/s)², since `u_sigmas = sqrt(var_wheel)` with `var_wheel = 9e-5`. -/
theorem C3_continuous_time_rate_convention :
    sqrtdt = Real.sqrt dtR ∧
    (∀ z : ℝ × ℝ,
      u_noiseOf z = (u_sigmas.1 / sqrtdt * z.1, u_sigmas.2 / sqrtdt * z.2)) ∧
    (∀ z : ℝ × ℝ,
      u_estOf z =
        ((u_nom.1 + (u_noiseOf z).1) * dtR, (u_nom.2 + (u_noiseOf z).2) * dtR)) ∧
    U = Matrix.diagonal ![9 / 100000, 9 / 100000] ∧
    system_model = SystemModel.setCovariance ⟨kinematic, 0⟩ U ∧
    system_model.U = U := by
  refine ⟨rfl, fun z => rfl, fun z => rfl, ?_, rfl, rfl⟩
  unfold U u_sigmas
  rw [Real.mul_self_sqrt (by unfold var_wheel; norm_num)]
  rfl

/-- C4: For every state `X = (P, c)` and integrated control
`u = (φ_l, φ_r)`, the differential-drive system model's pose increment has
arc length `dl = (r_l·φ_l + r_r·φ_r)/2` and heading increment
`dθ = (r_r·φ_r − r_l·φ_l)/d_w`, where the effective parameters
`(r_l, r_r, d_w)` are taken from the current calibration sub-state `c`
(as scale factors on the constructed kinematics); the model retracts by
exactly this tangent, its heading advances by `dθ`, and the calibration
block is untouched. -/
theorem C4_pose_increment_formulas :
    ∀ (X : State) (u : ℝ × ℝ),
      arcLength kinematic X.calib u =
        (effRl kinematic X.calib * u.1 + effRr kinematic X.calib * u.2) / 2 ∧
      headingIncrement kinematic X.calib u =
        (effRr kinematic X.calib * u.2 - effRl kinematic X.calib * u.1) /
          effDw kinematic X.calib ∧
      effRl kinematic X.calib = kinematic.rl * X.calib.c0 ∧
      effRr kinematic X.calib = kinematic.rr * X.calib.c1 ∧
      effDw kinematic X.calib = kinematic.dw * X.calib.c2 ∧
      stateTangent kinematic X.calib u =
        ⟨⟨arcLength kinematic X.calib u, 0, headingIncrement kinematic X.calib u⟩,
         ⟨0, 0, 0⟩⟩ ∧
      system_model.apply X u = X.rplus (stateTangent kinematic X.calib u) ∧
      (system_model.apply X u).pose.θ =
        X.pose.θ + headingIncrement kinematic X.calib u ∧
      (system_model.apply X u).calib = X.calib := by
  intro X u
  exact ⟨rfl, rfl, rfl, rfl, rfl, rfl, rfl, rfl,
    SystemModel.apply_calib system_model X u⟩

/-- C5 counterexample: under the IEEE-754 semantics of the driver's
accumulated `double t`, the update gates do not follow the step index.  At
iteration 11 the accumulated time is `0.10999999999999999`, so
`int(t*100) = 10` and both gates fire although 11 is neither a multiple of
2 nor of 10; at the even iteration 12 the landmark gate does not fire
(`int(t*100) = 11`); and at iteration 220 — a multiple of 10 — the GPS gate
does not fire (`int(t*100) = 219`).  This falsifies the claimed
multiples-of-2 / multiples-of-10 firing pattern in both directions. -/
theorem C5_counterexample :
    landmarkFiresF 11 ∧ ¬ (2 : ℕ) ∣ 11 ∧
    gpsFiresF 11 ∧ ¬ (10 : ℕ) ∣ 11 ∧
    ¬ landmarkFiresF 12 ∧ (2 : ℕ) ∣ 12 ∧
    ¬ gpsFiresF 220 ∧ (10 : ℕ) ∣ 220 ∧
    intT100 11 = 10 ∧ intT100 12 = 11 ∧ intT100 220 = 219 := by
  set_option maxRecDepth 4000 in decide

/-- C5 amended: the driver fires landmark updates on the iterations where
the truncated IEEE-accumulated time `int(t*100)` is a multiple of
`100/landmark_freq = 2`, and GPS updates where it is a multiple of
`100/gps_freq = 10` — not, as the rounded accumulation drifts, exactly on
the iterations whose index is a multiple of 2 resp. 10 (that equivalence
holds only on the exact grid `t = k·dt`, where the gates reduce to
`2 ∣ k` resp. `10 ∣ k`).  Both configured frequencies divide the 100 Hz
base grid, and on every iteration where the GPS update fires the landmark
updates fire too, since both gates consult the same truncated value. -/
theorem C5_amended_schedule :
    (∀ k, landmarkFiresF k ↔ (2 : ℕ) ∣ intT100 k) ∧
    (∀ k, gpsFiresF k ↔ (10 : ℕ) ∣ intT100 k) ∧
    (∀ k, gpsFiresF k → landmarkFiresF k) ∧
    control_freq = 100 ∧
    control_freq % landmark_freq = 0 ∧ control_freq / landmark_freq = 2 ∧
    control_freq % gps_freq = 0 ∧ control_freq / gps_freq = 10 ∧
    (∀ k, landmarkFires k ↔ (2 : ℕ) ∣ k) ∧
    (∀ k, gpsFires k ↔ (10 : ℕ) ∣ k) := by
  refine ⟨?_, ?_, ?_, rfl, by decide, by decide, by decide, by decide,
    landmarkFires_iff, gpsFires_iff⟩
  · intro k
    exact Nat.dvd_iff_mod_eq_zero.symm
  · intro k
    exact Nat.dvd_iff_mod_eq_zero.symm
  · intro k h
    have h10 : (10 : ℕ) ∣ intT100 k := Nat.dvd_iff_mod_eq_zero.mpr h
    have h2 : (2 : ℕ) ∣ intT100 k := dvd_trans (by norm_num) h10
    exact Nat.dvd_iff_mod_eq_zero.mp h2

/-- C5 witness: iteration 11 — where the rounded accumulation makes the GPS
gate fire off the multiples-of-10 pattern — still triggers the landmark
updates, as the amended claim's implication demands. -/
theorem C5_amended_witness : landmarkFiresF 11 :=
  C5_amended_schedule.2.2.1 11 (by decide)

/-- C6: The driver configures exactly three landmarks, at world positions
`(2,0)`, `(2,1)`, `(2,−1)`, each with measurement covariance
`R = 1e-4·I`, and the landmark updates run at `landmark_freq = 50` Hz on the
`dt = 0.01` s base grid. -/
theorem C6_landmark_configuration :
    measurement_models =
      [⟨(2, 0), (1 / 10000 : ℝ) • 1⟩, ⟨(2, 1), (1 / 10000 : ℝ) • 1⟩,
       ⟨(2, -1), (1 / 10000 : ℝ) • 1⟩] ∧
    measurement_models.length = 3 ∧
    R = (1 / 10000 : ℝ) • 1 ∧
    landmark_freq = 50 ∧ control_freq = 100 ∧ dt = 1 / 100 := by
  have hR : R = (1 / 10000 : ℝ) • 1 := by
    unfold R y_sigmas
    ext i j
    fin_cases i <;> fin_cases j <;>
      simp [Matrix.diagonal_apply, Matrix.one_apply] <;> norm_num
  refine ⟨?_, rfl, hR, rfl, rfl, by unfold dt control_freq; norm_num⟩
  unfold measurement_models
  rw [hR]

/-- C7: All four estimator variants — EKF (default-constructed, then
`setState`/`setCovariance`), SEKF, IEKF and UKFM (constructed from the
pair) — start from the same initial mean `X_init` and the same initial
covariance `state_cov_init`, whatever the EKF's default-constructed value
was. -/
theorem C7_common_initial_pair :
    ∀ (f₀ : Filter) (n : Fin 6 → ℝ),
      ekf_init f₀ n = ⟨X_init n, state_cov_init⟩ ∧
      sekf_init n = ⟨X_init n, state_cov_init⟩ ∧
      iekf_init n = ⟨X_init n, state_cov_init⟩ ∧
      ukfm_init n = ⟨X_init n, state_cov_init⟩ ∧
      ekf_init f₀ n = sekf_init n ∧ sekf_init n = iekf_init n ∧
      iekf_init n = ukfm_init n := by
  intro f₀ n
  cases f₀
  exact ⟨rfl, rfl, rfl, rfl, rfl, rfl, rfl⟩

/-- C8 counterexample: the claim says the driver's wheel-noise variance
`var_wheel` equals `(9.4e-3)²` and hence that the injected per-wheel
standard deviation `u_sigmas = sqrt(var_wheel)` equals `9.4e-3` rad.  Both
are false on the code: `var_wheel = 9e-5 ≠ 8.836e-5 = (9.4e-3)²`. -/
theorem C8_counterexample :
    var_wheel ≠ (94 / 10000 : ℝ) ^ 2 ∧ u_sigmas.1 ≠ (94 / 10000 : ℝ) := by
  constructor
  · unfold var_wheel
    norm_num
  · intro h
    have h2 : u_sigmas.1 * u_sigmas.1 = var_wheel :=
      Real.mul_self_sqrt (by unfold var_wheel; norm_num)
    rw [h] at h2
    unfold var_wheel at h2
    norm_num at h2

/-- C8 amended: the driver's wheel-noise variance is `var_wheel = 9e-5`
(rad/s)², so the injected per-wheel control-noise standard deviation is
`u_sigmas = sqrt(9e-5) ≈ 9.49e-3` rad — strictly between `9.4e-3` and
`9.5e-3`, not equal to `9.4e-3`. -/
theorem C8_amended_sigma_value :
    u_sigmas = (Real.sqrt var_wheel, Real.sqrt var_wheel) ∧
    var_wheel = 9 / 100000 ∧
    u_sigmas.1 ^ 2 = var_wheel ∧ u_sigmas.2 ^ 2 = var_wheel ∧
    (94 / 10000 : ℝ) < u_sigmas.1 ∧ u_sigmas.1 < (95 / 10000 : ℝ) := by
  have hv : (0 : ℝ) ≤ 9 / 100000 := by norm_num
  refine ⟨rfl, rfl, Real.sq_sqrt hv, Real.sq_sqrt hv, ?_, ?_⟩
  · show (94 / 10000 : ℝ) < Real.sqrt (9 / 100000)
    rw [show (94 / 10000 : ℝ) = Real.sqrt ((94 / 10000) ^ 2) by
      rw [Real.sqrt_sq (by norm_num)]]
    apply Real.sqrt_lt_sqrt (by positivity)
    norm_num
  · show Real.sqrt (9 / 100000) < (95 / 10000 : ℝ)
    rw [show (95 / 10000 : ℝ) = Real.sqrt ((95 / 10000) ^ 2) by
      rw [Real.sqrt_sq (by norm_num)]]
    apply Real.sqrt_lt_sqrt (by positivity)
    norm_num

/-- C9: The calibration block of the composite state is represented as
dimensionless per-parameter scale factors relative to the kinematics triple
`(0.15, 0.15, 0.4)`, not as the physical values themselves: the simulator
seeds it with `(1,1,1)`, the estimators' initial calibration coefficients
are perturbations of `(1,1,1)` by the scaled noise draw, and the
tyre-squeeze event writes `0.85` — the scale factor whose effective radius
is `0.1275` — not `0.1275` itself. -/
theorem C9_calibration_scale_factors :
    X_simulation₀.calib = ⟨1, 1, 1⟩ ∧
    kinematic = ⟨15 / 100, 15 / 100, 4 / 10⟩ ∧
    (∀ n : Fin 6 → ℝ,
      (X_init n).calib =
        ⟨Real.sqrt (1 / 100000) * n 3 + 1,
         Real.sqrt (1 / 100000) * n 4 + 1,
         Real.sqrt (1 / 100000) * n 5 + 1⟩) ∧
    squeezeCalib = ⟨85 / 100, 85 / 100, 1⟩ ∧
    effRl kinematic squeezeCalib = 1275 / 10000 ∧
    squeezeCalib.c0 ≠ (1275 / 10000 : ℝ) ∧
    X_simulation₀.calib.c0 ≠ kinematic.rl := by
  refine ⟨rfl, rfl, ?_, rfl, ?_, ?_, ?_⟩
  · intro n
    obtain ⟨h3, h4, h5⟩ := X_init_coeffs_calib n
    show (⟨X_init_coeffs n 3, X_init_coeffs n 4, X_init_coeffs n 5⟩ : Calib) = _
    rw [h3, h4, h5]
  · show (15 : ℝ) / 100 * (85 / 100) = 1275 / 10000
    norm_num
  · show (85 : ℝ) / 100 ≠ 1275 / 10000
    norm_num
  · show (1 : ℝ) ≠ 15 / 100
    norm_num

/-- C10: On every loop iteration, all four filters and the unfiltered
baseline consume identical inputs — `u_est = u_unfilt = (u_nom + u_noise)·dt`
— and the four per-filter call sequences coincide: one propagation with
`u_est`, then (on firing iterations) the landmark updates in index order
`0, 1, 2` with the same noisy measurements, then the GPS update with the
same noisy fix; the estimator components of the driver step are exactly
these call sequences applied to the respective filters. -/
theorem C10_identical_filter_inputs :
    (∀ z : ℝ × ℝ, u_estOf z = u_unfiltOf z) ∧
    (∀ z : ℝ × ℝ,
      u_estOf z =
        ((u_nom.1 + (u_noiseOf z).1) * dtR, (u_nom.2 + (u_noiseOf z).2) * dtR)) ∧
    (∀ (k : ℕ) (uEst : ℝ × ℝ) (ys : Fin 3 → ℝ × ℝ) (ygps : ℝ × ℝ),
      ekfStepCalls k uEst ys ygps = sekfStepCalls k uEst ys ygps ∧
      sekfStepCalls k uEst ys ygps = iekfStepCalls k uEst ys ygps ∧
      iekfStepCalls k uEst ys ygps = ukfmStepCalls k uEst ys ygps) ∧
    (∀ (k : ℕ) (uEst : ℝ × ℝ) (ys : Fin 3 → ℝ × ℝ) (ygps : ℝ × ℝ),
      landmarkFires k → gpsFires k →
      ekfStepCalls k uEst ys ygps =
        [FilterCall.propagate uEst,
         FilterCall.update (MModel.lmk (mmAt 0)) (ys 0),
         FilterCall.update (MModel.lmk (mmAt 1)) (ys 1),
         FilterCall.update (MModel.lmk (mmAt 2)) (ys 2),
         FilterCall.update (MModel.gps R_gps) ygps]) ∧
    (∀ (opsE opsS opsI opsU : FilterOps) (k : ℕ) (z : StepNoise)
        (s : DriverState),
      (driverStep opsE opsS opsI opsU k z s).ekf =
        applyCalls opsE
          (ekfStepCalls k (u_estOf z.u)
            (measurementsOf z ((driverStep opsE opsS opsI opsU k z s).Xsim))
            (gpsMeasOf z ((driverStep opsE opsS opsI opsU k z s).Xsim)))
          s.ekf ∧
      (driverStep opsE opsS opsI opsU k z s).sekf =
        applyCalls opsS
          (sekfStepCalls k (u_estOf z.u)
            (measurementsOf z ((driverStep opsE opsS opsI opsU k z s).Xsim))
            (gpsMeasOf z ((driverStep opsE opsS opsI opsU k z s).Xsim)))
          s.sekf ∧
      (driverStep opsE opsS opsI opsU k z s).iekf =
        applyCalls opsI
          (iekfStepCalls k (u_estOf z.u)
            (measurementsOf z ((driverStep opsE opsS opsI opsU k z s).Xsim))
            (gpsMeasOf z ((driverStep opsE opsS opsI opsU k z s).Xsim)))
          s.iekf ∧
      (driverStep opsE opsS opsI opsU k z s).ukfm =
        applyCalls opsU
          (ukfmStepCalls k (u_estOf z.u)
            (measurementsOf z ((driverStep opsE opsS opsI opsU k z s).Xsim))
            (gpsMeasOf z ((driverStep opsE opsS opsI opsU k z s).Xsim)))
          s.ukfm) := by
  refine ⟨fun z => rfl, fun z => rfl, fun k uEst ys ygps => ⟨rfl, rfl, rfl⟩,
    ?_, fun opsE opsS opsI opsU k z s => ⟨rfl, rfl, rfl, rfl⟩⟩
  intro k uEst ys ygps hl hg
  unfold ekfStepCalls
  rw [if_pos hl, if_pos hg]
  rfl

/-- C10 witness: at iteration 0 both gates fire (0 is a multiple of 2 and of
10), and the EKF call sequence is exactly the propagate followed by the
three landmark updates in index order and the GPS update. -/
theorem C10_witness :
    ekfStepCalls 0 (0, 0) (fun _ => (0, 0)) (0, 0) =
      [FilterCall.propagate (0, 0),
       FilterCall.update (MModel.lmk (mmAt 0)) (0, 0),
       FilterCall.update (MModel.lmk (mmAt 1)) (0, 0),
       FilterCall.update (MModel.lmk (mmAt 2)) (0, 0),
       FilterCall.update (MModel.gps R_gps) (0, 0)] :=
  C10_identical_filter_inputs.2.2.2.1 0 (0, 0) (fun _ => (0, 0)) (0, 0)
    ((landmarkFires_iff 0).mpr (dvd_zero 2)) ((gpsFires_iff 0).mpr (dvd_zero 10))

end KalmanifDemo
